import Mathlib

/-!
Shallow embedding of the field-normalization and query-degradation layer of
the Jira/Confluence adapter servers (src/unnamed/part_001 `JiraClient` and
src/mcp-confluence-server/src/confluence-client.ts `ConfluenceClient`).

JavaScript runtime values are modelled by `JValue`; property access, the
logical-or operator, truthiness, `typeof` and template stringification are
modelled faithfully.  Code that can throw a `TypeError` (property access on
`null`/`undefined`, `.map`/`.toLowerCase` on values lacking those methods)
is modelled with `Option`, `none` standing for a thrown exception.
`new Date().toISOString()` is modelled by an explicit `now : String`
parameter (the two calls inside one normalizer are taken to return the same
string).
-/

/-- A JavaScript runtime value. -/
inductive JValue where
  | vUndef : JValue
  | vNull : JValue
  | vBool : Bool → JValue
  | vNum : Int → JValue
  | vStr : String → JValue
  | vArr : List JValue → JValue
  | vObj : List (String × JValue) → JValue

open JValue

/-- Property lookup in an object's field list; absent keys read as `undefined`. -/
def lookupOr : List (String × JValue) → String → JValue
  | [], _ => vUndef
  | (k', v) :: rest, k => if k' = k then v else lookupOr rest k

/-- JavaScript property access `v.k` on a non-nullish base: objects look up the
key, every other non-nullish value yields `undefined` (none of the accessed
names exist on strings, numbers, booleans or arrays). -/
def getProp : JValue → String → JValue
  | vObj fs, k => lookupOr fs k
  | _, _ => vUndef

/-- JavaScript truthiness. -/
def truthy : JValue → Bool
  | vUndef => false
  | vNull => false
  | vBool b => b
  | vNum n => n != 0
  | vStr s => s != ""
  | vArr _ => true
  | vObj _ => true

/-- JavaScript `a || b`. -/
def jsOr (a b : JValue) : JValue := if truthy a then a else b

/-- Whether a value is `null` or `undefined` (property access throws). -/
def isNullish : JValue → Bool
  | vNull => true
  | vUndef => true
  | _ => false

/-- JavaScript optional chaining `v?.k`. -/
def optChain (v : JValue) (k : String) : JValue :=
  if isNullish v then vUndef else getProp v k

/-- JavaScript `typeof`. -/
def typeof : JValue → String
  | vUndef => "undefined"
  | vNull => "object"
  | vBool _ => "boolean"
  | vNum _ => "number"
  | vStr _ => "string"
  | vArr _ => "object"
  | vObj _ => "object"

mutual

/-- JavaScript string coercion as used in template literals. -/
def jsToString : JValue → String
  | vUndef => "undefined"
  | vNull => "null"
  | vBool b => if b then "true" else "false"
  | vNum n => toString n
  | vStr s => s
  | vArr xs => String.intercalate "," (jsToStringList xs)
  | vObj _ => "[object Object]"

/-- Array-element stringification for `jsToString`. -/
def jsToStringList : List JValue → List String
  | [] => []
  | v :: vs => jsToString v :: jsToStringList vs

end

example : jsOr (vStr "") (vStr "x") = vStr "x" := rfl
example : truthy (vArr []) = true := rfl

/-! ## Canonical Jira entities (interfaces of src/unnamed/part_001)

Field values stay `JValue`: the normalizers perform no type validation, so a
value of any runtime type passes through unchanged. Optional (`?`) interface
fields are `Option`: `none` models the field holding `undefined`. -/

/-- A `{name, id}` pair (status, priority, issuetype). -/
structure NameId where
  name : JValue
  id : JValue

/-- A `{displayName, emailAddress}` pair (assignee, reporter, comment author). -/
structure Person where
  displayName : JValue
  emailAddress : JValue

/-- The `project` member of `JiraIssue.fields`. -/
structure ProjectRef where
  key : JValue
  name : JValue

/-- The `fields` member of the `JiraIssue` interface. -/
structure IssueFields where
  summary : JValue
  description : JValue
  status : NameId
  assignee : Option Person
  reporter : Option Person
  created : JValue
  updated : JValue
  priority : Option NameId
  issuetype : NameId
  project : ProjectRef
  labels : JValue

/-- The `JiraIssue` interface. -/
structure JiraIssue where
  id : JValue
  key : JValue
  fields : IssueFields

/-- The `JiraComment` interface. -/
structure JiraComment where
  id : JValue
  author : Person
  body : JValue
  created : JValue
  updated : JValue

/-- The `lead` member of the `JiraProject` interface. -/
structure Lead where
  displayName : JValue

/-- The `JiraProject` interface. -/
structure JiraProject where
  id : JValue
  key : JValue
  name : JValue
  description : JValue
  lead : Option Lead

/-- The `SearchResult` interface of the Jira client. -/
structure JiraSearchResult where
  issues : List JiraIssue
  total : JValue
  maxResults : Int
  startAt : Int

namespace Jira

/-- `JiraClient.normalizeCustomIssue` (src/unnamed/part_001 lines 333-369).
`none` models the `TypeError` thrown by `customIssue.id` when the argument is
`null` or `undefined`; every other input reaches the object literal. -/
def normalizeCustomIssue (raw : JValue) (now : String) : Option JiraIssue :=
  match raw with
  | vNull => none
  | vUndef => none
  | c => some {
      id := jsOr (getProp c "id") (jsOr (getProp c "issue_id") (vStr "")),
      key := jsOr (getProp c "key") (jsOr (getProp c "id")
        (jsOr (getProp c "number") (vStr ""))),
      fields := {
        summary := jsOr (getProp c "title") (jsOr (getProp c "summary")
          (jsOr (getProp c "name") (vStr ""))),
        description := jsOr (getProp c "description") (jsOr (getProp c "body")
          (getProp c "content")),
        status := {
          name := jsOr (getProp c "status") (jsOr (getProp c "state") (vStr "Unknown")),
          id := jsOr (getProp c "status_id") (jsOr (getProp c "status") (vStr "1")) },
        assignee := if truthy (getProp c "assignee") then
            some {
              displayName := jsOr (getProp (getProp c "assignee") "name")
                (jsOr (getProp c "assignee") (vStr "")),
              emailAddress := jsOr (getProp (getProp c "assignee") "email") (vStr "") }
          else none,
        reporter := if truthy (jsOr (getProp c "reporter") (getProp c "created_by")) then
            some {
              displayName := jsOr (optChain (getProp c "reporter") "name")
                (jsOr (getProp c "created_by") (vStr "")),
              emailAddress := jsOr (optChain (getProp c "reporter") "email") (vStr "") }
          else none,
        created := jsOr (getProp c "created") (jsOr (getProp c "created_at") (vStr now)),
        updated := jsOr (getProp c "updated") (jsOr (getProp c "updated_at") (vStr now)),
        priority := if truthy (getProp c "priority") then
            some { name := getProp c "priority",
                   id := jsOr (getProp c "priority_id") (vStr "3") }
          else none,
        issuetype := {
          name := jsOr (getProp c "type") (jsOr (getProp c "issue_type") (vStr "Task")),
          id := jsOr (getProp c "type_id") (vStr "1") },
        project := {
          key := jsOr (getProp c "project") (jsOr (getProp c "project_key") (vStr "")),
          name := jsOr (getProp c "project_name") (jsOr (getProp c "project") (vStr "")) },
        labels := jsOr (getProp c "labels") (jsOr (getProp c "tags") (vArr [])) } }

/-- `JiraClient.normalizeCustomComment` (src/unnamed/part_001 lines 371-382). -/
def normalizeCustomComment (raw : JValue) (now : String) : Option JiraComment :=
  match raw with
  | vNull => none
  | vUndef => none
  | c => some {
      id := jsOr (getProp c "id") (jsOr (getProp c "comment_id") (vStr "")),
      author := {
        displayName := jsOr (getProp c "author") (jsOr (getProp c "user")
          (jsOr (getProp c "created_by") (vStr "Unknown"))),
        emailAddress := jsOr (getProp c "author_email") (vStr "") },
      body := jsOr (getProp c "comment") (jsOr (getProp c "body")
        (jsOr (getProp c "content") (vStr ""))),
      created := jsOr (getProp c "created") (jsOr (getProp c "created_at") (vStr now)),
      updated := jsOr (getProp c "updated") (jsOr (getProp c "updated_at") (vStr now)) }

/-- `JiraClient.normalizeCustomProject` (src/unnamed/part_001 lines 384-394). -/
def normalizeCustomProject (raw : JValue) : Option JiraProject :=
  match raw with
  | vNull => none
  | vUndef => none
  | c => some {
      id := jsOr (getProp c "id") (jsOr (getProp c "project_id") (vStr "")),
      key := jsOr (getProp c "key") (jsOr (getProp c "code")
        (jsOr (getProp c "id") (vStr ""))),
      name := jsOr (getProp c "name") (jsOr (getProp c "title") (vStr "")),
      description := jsOr (getProp c "description") (vStr ""),
      lead := if truthy (jsOr (getProp c "lead") (getProp c "owner")) then
          some { displayName :=
                   jsOr (optChain (getProp c "lead") "name")
                     (jsOr (getProp c "owner") (vStr "")) }
        else none }

/-- `JiraClient.normalizeCustomSearchResult` (src/unnamed/part_001 lines 396-404).
`none` models a thrown `TypeError`: property access on a nullish argument,
`.map` on a non-array, or a nullish array element inside the mapped
`normalizeCustomIssue`. -/
def normalizeCustomSearchResult (raw : JValue) (maxResults startAt : Int)
    (now : String) : Option JiraSearchResult :=
  match raw with
  | vNull => none
  | vUndef => none
  | c =>
    let issuesV := jsOr (getProp c "issues") (jsOr (getProp c "data")
      (jsOr (getProp c "results") (vArr [])))
    match issuesV with
    | vArr xs =>
      match xs.mapM (fun e => normalizeCustomIssue e now) with
      | some issues => some {
          issues := issues,
          total := jsOr (getProp c "total") (vNum (xs.length : Int)),
          maxResults := maxResults,
          startAt := startAt }
      | none => none
    | _ => none

end Jira

/-! ## JQL degradation (`JiraClient.parseJqlToFilters`, src/unnamed/part_001
lines 406-429)

The three regexes `/field\s*=\s*([^\s]+)/i` are embedded as a leftmost
case-insensitive scanner: at each position try the literal field name, then
`\s*`, `=`, `\s*`, then a maximal non-empty run of non-whitespace characters
(the capture). `.replace(/['"]/g, '')` removes every quote character. -/

/-- JavaScript `\s` (ASCII part). -/
def isJsWs (c : Char) : Bool :=
  c = ' ' || c = '\t' || c = '\n' || c = '\r' || c.toNat = 11 || c.toNat = 12

/-- Case-insensitive literal match; returns the remaining characters. -/
def matchCiLiteral : List Char → List Char → Option (List Char)
  | [], rest => some rest
  | _ :: _, [] => none
  | l :: ls, c :: rest => if c.toLower = l then matchCiLiteral ls rest else none

/-- Match `\s*=\s*([^\s]+)` and return the capture. -/
def matchEqValue (cs : List Char) : Option (List Char) :=
  match cs.dropWhile isJsWs with
  | '=' :: cs2 =>
    let value := (cs2.dropWhile isJsWs).takeWhile (fun c => !(isJsWs c))
    if value.isEmpty then none else some value
  | _ => none

/-- Leftmost match of `/<field>\s*=\s*([^\s]+)/i`; returns the capture. -/
def findFieldValue (field : List Char) : List Char → Option (List Char)
  | [] => none
  | c :: cs =>
    match matchCiLiteral field (c :: cs) with
    | some rest =>
      match matchEqValue rest with
      | some v => some v
      | none => findFieldValue field cs
    | none => findFieldValue field cs

/-- `.replace(/['"]/g, '')`: drop every single or double quote. -/
def stripQuotes (v : List Char) : List Char :=
  v.filter (fun c => !(c = '"' || c.toNat = 39))

/-- The filter object built by `parseJqlToFilters`; a `none` field models a key
absent from the returned record. -/
structure JqlFilters where
  project : Option String
  status : Option String
  assignee : Option String
deriving DecidableEq

namespace Jira

/-- `JiraClient.parseJqlToFilters` (src/unnamed/part_001 lines 406-429).
Note: the source computes `jqlLower = jql.toLowerCase()` but never uses it;
all three regexes run against the original-case `jql`, and only the captured
text keeps its original case (the `/i` flag affects matching, not capture).
The `currentuser()` comparison is against the original-case capture. -/
def parseJqlToFilters (jql : String) : JqlFilters :=
  let cs := jql.data
  { project := (findFieldValue "project".data cs).map
      (fun v => String.mk (stripQuotes v)),
    status := (findFieldValue "status".data cs).map
      (fun v => String.mk (stripQuotes v)),
    assignee := (findFieldValue "assignee".data cs).map (fun v =>
      let a := String.mk (stripQuotes v)
      if a = "currentuser()" then "me" else a) }

end Jira

example : Jira.parseJqlToFilters "project = DEMO AND status = \"Open\"" =
    ⟨some "DEMO", some "Open", none⟩ := by decide
example : Jira.parseJqlToFilters "assignee = currentUser()" =
    ⟨none, none, some "currentUser()"⟩ := by decide
example : Jira.parseJqlToFilters "assignee = currentuser()" =
    ⟨none, none, some "me"⟩ := by decide

/-! ## Canonical Confluence entities
(interfaces of src/mcp-confluence-server/src/confluence-client.ts)

The custom-path normalizers always construct `body`, `version`, `history` and
`_links`, so those members are modelled as required here. The interface field
`by` is spelled `byUser` (`by` is reserved in Lean). -/

/-- The `space` member of `ConfluencePage`. -/
structure SpaceRef where
  key : JValue
  name : JValue

/-- A `{value, representation}` body part (`body.storage` / `body.view`). -/
structure BodyPart where
  value : JValue
  representation : String

/-- The `body` member of `ConfluencePage`. -/
structure PageBody where
  storage : BodyPart
  view : BodyPart

/-- A `{displayName, email}` pair (`version.by`, `history.createdBy`). -/
structure ByLine where
  displayName : JValue
  email : JValue

/-- The `version` member of `ConfluencePage`. -/
structure PageVersion where
  number : JValue
  when : JValue
  byUser : ByLine

/-- The `history` member of `ConfluencePage`. -/
structure PageHistory where
  createdDate : JValue
  createdBy : ByLine

/-- The `_links` member of `ConfluencePage` / `ConfluenceSpace`. -/
structure PageLinks where
  webui : JValue
  self : String

/-- The `ConfluencePage` interface. -/
structure ConfluencePage where
  id : JValue
  title : JValue
  type : JValue
  status : JValue
  space : Option SpaceRef
  body : PageBody
  version : PageVersion
  history : PageHistory
  _links : PageLinks

/-- The `description.plain` member of `ConfluenceSpace`. -/
structure PlainValue where
  value : JValue

/-- The `description` member of `ConfluenceSpace`. -/
structure SpaceDescription where
  plain : PlainValue

/-- The `ConfluenceSpace` interface. -/
structure ConfluenceSpace where
  key : JValue
  name : JValue
  type : JValue
  description : SpaceDescription
  _links : PageLinks

/-- The `SearchResult` interface of the Confluence client. -/
structure ConfluenceSearchResult where
  results : List ConfluencePage
  start : Int
  limit : Int
  size : Int

namespace Confluence

/-- The `space` member computation of `normalizeCustomPage`
(confluence-client.ts lines 396-399):
`customPage.space || customPage.space_key ? {key: typeof customPage.space ===
'object' ? customPage.space.key : ..., name: ...} : undefined`.
`none` models the `TypeError` of `customPage.space.key` when `space` is `null`
(for which `typeof` is `"object"`) while `space_key` is truthy. -/
def spaceField (sp spk : JValue) : Option (Option SpaceRef) :=
  if truthy (jsOr sp spk) then
    if typeof sp = "object" then
      match sp with
      | vNull => none
      | s => some (some { key := getProp s "key", name := getProp s "name" })
    else some (some { key := jsOr sp spk, name := jsOr sp spk })
  else some none

/-- `ConfluenceClient.normalizeCustomPage` (confluence-client.ts lines
390-430). `none` models a thrown `TypeError` (nullish argument, or the
`space`-member access described at `spaceField`). -/
def normalizeCustomPage (raw : JValue) (now : String) : Option ConfluencePage :=
  match raw with
  | vNull => none
  | vUndef => none
  | c =>
    (spaceField (getProp c "space") (getProp c "space_key")).map (fun sf => {
      id := jsOr (getProp c "id") (jsOr (getProp c "page_id") (vStr "")),
      title := jsOr (getProp c "title") (jsOr (getProp c "name") (vStr "")),
      type := vStr "page",
      status := jsOr (getProp c "status") (vStr "current"),
      space := sf,
      body := {
        storage := {
          value := jsOr (getProp c "content") (jsOr (getProp c "body")
            (jsOr (getProp c "text") (vStr ""))),
          representation := "storage" },
        view := {
          value := jsOr (getProp c "content") (jsOr (getProp c "body")
            (jsOr (getProp c "text") (vStr ""))),
          representation := "view" } },
      version := {
        number := jsOr (getProp c "version") (jsOr (getProp c "revision") (vNum 1)),
        when := jsOr (getProp c "updated") (jsOr (getProp c "updated_at") (vStr now)),
        byUser := {
          displayName := jsOr (getProp c "updated_by")
            (jsOr (getProp c "author") (vStr "Unknown")),
          email := jsOr (getProp c "updated_by_email") (vStr "") } },
      history := {
        createdDate := jsOr (getProp c "created")
          (jsOr (getProp c "created_at") (vStr now)),
        createdBy := {
          displayName := jsOr (getProp c "created_by")
            (jsOr (getProp c "author") (vStr "Unknown")),
          email := jsOr (getProp c "created_by_email") (vStr "") } },
      _links := {
        webui := jsOr (getProp c "url") (jsOr (getProp c "link") (vStr "")),
        self := "/rest/api/content/" ++
          jsToString (jsOr (getProp c "id") (getProp c "page_id")) } })

/-- `ConfluenceClient.normalizeCustomSpace` (confluence-client.ts lines
432-447). -/
def normalizeCustomSpace (raw : JValue) : Option ConfluenceSpace :=
  match raw with
  | vNull => none
  | vUndef => none
  | c => some {
      key := jsOr (getProp c "key") (jsOr (getProp c "id")
        (jsOr (getProp c "code") (vStr ""))),
      name := jsOr (getProp c "name") (jsOr (getProp c "title") (vStr "")),
      type := jsOr (getProp c "type") (vStr "global"),
      description := { plain := { value := jsOr (getProp c "description") (vStr "") } },
      _links := {
        webui := jsOr (getProp c "url") (jsOr (getProp c "link") (vStr "")),
        self := "/rest/api/space/" ++
          jsToString (jsOr (getProp c "key") (getProp c "id")) } }

/-- `ConfluenceClient.normalizeCustomSearchResult` (confluence-client.ts lines
471-479). `size` is `pages.length`, counted before normalization. -/
def normalizeCustomSearchResult (raw : JValue) (limit start : Int)
    (now : String) : Option ConfluenceSearchResult :=
  match raw with
  | vNull => none
  | vUndef => none
  | c =>
    let pagesV := jsOr (getProp c "pages") (jsOr (getProp c "data")
      (jsOr (getProp c "results") (vArr [])))
    match pagesV with
    | vArr xs =>
      (xs.mapM (fun p => normalizeCustomPage p now)).map (fun rs => {
        results := rs, start := start, limit := limit, size := (xs.length : Int) })
    | _ => none

end Confluence

example :
    Confluence.normalizeCustomPage (vObj [(("space"), vNull), ("space_key", vStr "K")])
      "T" = none := rfl

/-! ## CQL degradation (`ConfluenceClient.parseCqlToSimpleQuery`,
confluence-client.ts lines 481-486)

Step 1 `cql.replace(/\b(and|or|not)\b/gi, ' ')` is a global word-boundary
keyword replacement; step 2
`.replace(/(space|type|title|text)\s*=\s*["']?([^"']+)["']?/gi, '$2')` keeps
only the captured value; step 3 is `query.split()` — in JavaScript `split`
with NO separator argument returns the one-element array `[query]`, so no
whitespace tokenization takes place — followed by
`.filter(term => term.length > 2).join(' ')`. -/

/-- JavaScript `\w` (ASCII word character). -/
def isWordChar (c : Char) : Bool := c.isAlphanum || c = '_'

/-- `\b` after a keyword: the next character is absent or a non-word character. -/
def nonWordNext : List Char → Bool
  | [] => true
  | x :: _ => !(isWordChar x)

/-- Global replacement of `/\b(and|or|not)\b/gi` by a single space.
`prevW` records whether the previous character of the original string is a
word character (all three keywords start with one, so `\b` holds exactly when
it is not). The fuel is an upper bound on the number of scanning steps (each
step consumes at least one character). -/
def stripKeywords : Nat → Bool → List Char → List Char
  | 0, _, cs => cs
  | _ + 1, _, [] => []
  | fuel + 1, prevW, c :: cs =>
    if prevW then c :: stripKeywords fuel (isWordChar c) cs
    else if c.toLower = 'a' then
      match cs with
      | c2 :: c3 :: rest =>
        if c2.toLower = 'n' && c3.toLower = 'd' && nonWordNext rest then
          ' ' :: stripKeywords fuel true rest
        else c :: stripKeywords fuel (isWordChar c) cs
      | _ => c :: stripKeywords fuel (isWordChar c) cs
    else if c.toLower = 'o' then
      match cs with
      | c2 :: rest =>
        if c2.toLower = 'r' && nonWordNext rest then
          ' ' :: stripKeywords fuel true rest
        else c :: stripKeywords fuel (isWordChar c) cs
      | _ => c :: stripKeywords fuel (isWordChar c) cs
    else if c.toLower = 'n' then
      match cs with
      | c2 :: c3 :: rest =>
        if c2.toLower = 'o' && c3.toLower = 't' && nonWordNext rest then
          ' ' :: stripKeywords fuel true rest
        else c :: stripKeywords fuel (isWordChar c) cs
      | _ => c :: stripKeywords fuel (isWordChar c) cs
    else c :: stripKeywords fuel (isWordChar c) cs

/-- A double or single quote (the `["']` class). -/
def isQuoteC (c : Char) : Bool := c = '"' || c.toNat = 39

/-- After the field literal: match `\s*=\s*["']?([^"']+)["']?`, returning the
capture and the characters after the whole match. -/
def clauseAfterField (r1 : List Char) : Option (List Char × List Char) :=
  match r1.dropWhile isJsWs with
  | '=' :: r3 =>
    let r4 := r3.dropWhile isJsWs
    let r5 := match r4 with
      | q :: rr => if isQuoteC q then rr else r4
      | [] => r4
    let cap := r5.takeWhile (fun c => !(isQuoteC c))
    if cap.isEmpty then none
    else
      let r6 := r5.drop cap.length
      let r7 := match r6 with
        | q :: rr => if isQuoteC q then rr else r6
        | [] => r6
      some (cap, r7)
  | _ => none

/-- Try the alternation `(space|type|title|text)` (in source order) followed by
the clause tail, at the current position. -/
def tryClause (cs : List Char) : Option (List Char × List Char) :=
  (matchCiLiteral "space".data cs >>= clauseAfterField) <|>
  (matchCiLiteral "type".data cs >>= clauseAfterField) <|>
  (matchCiLiteral "title".data cs >>= clauseAfterField) <|>
  (matchCiLiteral "text".data cs >>= clauseAfterField)

/-- Global scan for the field-clause replacement; the fuel is an upper bound
on the number of scanning steps (each step emits or consumes at least one
character). -/
def replaceClauses : Nat → List Char → List Char
  | 0, cs => cs
  | _ + 1, [] => []
  | fuel + 1, c :: cs =>
    match tryClause (c :: cs) with
    | some (cap, rest) => cap ++ replaceClauses fuel rest
    | none => c :: replaceClauses fuel cs

namespace Confluence

/-- `ConfluenceClient.parseCqlToSimpleQuery` (confluence-client.ts lines
481-486). `query.split()` (no separator) is `[query]`. -/
def parseCqlToSimpleQuery (cql : String) : String :=
  let q1 := String.mk (stripKeywords cql.length false cql.data)
  let q2 := String.mk (replaceClauses q1.length q1.data)
  String.intercalate " " ([q2].filter (fun t => t.length > 2))

end Confluence

example : Confluence.parseCqlToSimpleQuery "ab and hello" = "ab   hello" := by decide
example : Confluence.parseCqlToSimpleQuery "a" = "" := by decide
example : Confluence.parseCqlToSimpleQuery "space = \"DEV\" and text = hello" =
    "DEV   hello" := by decide

/-! ## Lookup operations with empty upstream result sets (claim C9)

The HTTP layer is out of scope; the upstream response body (`response.data`)
is passed in as a `JValue`. The outer `Option` models a thrown error; the
inner `Option ConfluencePage` models the `ConfluencePage | null` return. -/

/-- JavaScript strict equality `v === s` against a string. -/
def jvEqStr (v : JValue) (s : String) : Bool :=
  match v with
  | vStr t => t = s
  | _ => false

/-- JavaScript `.length` as read on the extracted `pages` value: arrays and
strings have a numeric length, everything else reads `undefined`. -/
def jsLength : JValue → Option Int
  | vArr xs => some (xs.length : Int)
  | vStr s => some (s.length : Int)
  | _ => none

/-- JavaScript `pages[0]`. -/
def jsIndexZero : JValue → JValue
  | vArr xs => xs.headD vUndef
  | vStr s => vStr (s.take 1)
  | _ => vUndef

namespace Confluence

/-- Custom-API path of `ConfluenceClient.getPageByTitle` (confluence-client.ts
lines 137-150), from `response.data` on. `pages.length > 0` is false when
`.length` reads `undefined`; `.toLowerCase()` on a non-string throws. -/
def getPageByTitleCustom (data : JValue) (title : String) (now : String) :
    Option (Option ConfluencePage) :=
  match data with
  | vNull => none
  | vUndef => none
  | d =>
    let pages := jsOr (getProp d "pages") (jsOr (getProp d "data")
      (jsOr (getProp d "results") (vArr [])))
    let lenPos : Bool := match jsLength pages with
      | some n => decide (n > 0)
      | none => false
    if lenPos then
      match jsIndexZero pages with
      | vNull => none
      | vUndef => none
      | page =>
        match jsOr (getProp page "title") (jsOr (getProp page "name") (vStr "")) with
        | vStr s =>
          if s.toLower = title.toLower then (normalizeCustomPage page now).map some
          else some none
        | _ => none
    else some none

/-- Custom-API path of `ConfluenceClient.getSpaces` (confluence-client.ts
lines 279-285), from `response.data` on. -/
def getSpacesCustom (data : JValue) : Option (List ConfluenceSpace) :=
  match data with
  | vNull => none
  | vUndef => none
  | d =>
    match jsOr (getProp d "spaces") (jsOr (getProp d "data") (vArr [])) with
    | vArr xs => xs.mapM normalizeCustomSpace
    | _ => none

/-- Custom-API path of `ConfluenceClient.getSpace` (confluence-client.ts lines
300-306): find by key or name among `getSpaces()`, and `throw new
Error(\x60Space ... not found\x60)` when absent — modelled by `Except.error`. -/
def getSpaceCustom (data : JValue) (spaceKey : String) :
    Option (Except String ConfluenceSpace) :=
  (getSpacesCustom data).map (fun spaces =>
    match spaces.find? (fun s => jvEqStr s.key spaceKey || jvEqStr s.name spaceKey) with
    | some s => Except.ok s
    | none => Except.error ("Space " ++ spaceKey ++ " not found"))

end Confluence

/-! ## Serialization of canonical entities back to runtime objects

Applying a normalizer to its own output (claim C3) passes the constructed
object back in; these `toRaw` functions give that object as a `JValue`, with
the same keys the object literals construct and `undefined` for optional
members that were not set. -/

/-- The raw object underlying a constructed `Person`. -/
def Person.toRaw (p : Person) : JValue :=
  vObj [("displayName", p.displayName), ("emailAddress", p.emailAddress)]

/-- The raw object underlying a constructed `NameId`. -/
def NameId.toRaw (s : NameId) : JValue :=
  vObj [("name", s.name), ("id", s.id)]

/-- `undefined` for an unset optional member, the serialization otherwise. -/
def optRaw (f : α → JValue) : Option α → JValue
  | none => vUndef
  | some x => f x

/-- The raw object underlying a normalized `JiraIssue`. -/
def JiraIssue.toRaw (i : JiraIssue) : JValue :=
  vObj [("id", i.id), ("key", i.key),
    ("fields", vObj [
      ("summary", i.fields.summary),
      ("description", i.fields.description),
      ("status", i.fields.status.toRaw),
      ("assignee", optRaw Person.toRaw i.fields.assignee),
      ("reporter", optRaw Person.toRaw i.fields.reporter),
      ("created", i.fields.created),
      ("updated", i.fields.updated),
      ("priority", optRaw NameId.toRaw i.fields.priority),
      ("issuetype", i.fields.issuetype.toRaw),
      ("project", vObj [("key", i.fields.project.key), ("name", i.fields.project.name)]),
      ("labels", i.fields.labels)])]

/-- The raw object underlying a constructed `SpaceRef`. -/
def SpaceRef.toRaw (s : SpaceRef) : JValue :=
  vObj [("key", s.key), ("name", s.name)]

/-- The raw object underlying a constructed `BodyPart`. -/
def BodyPart.toRaw (b : BodyPart) : JValue :=
  vObj [("value", b.value), ("representation", vStr b.representation)]

/-- The raw object underlying a constructed `PageBody`. -/
def PageBody.toRaw (b : PageBody) : JValue :=
  vObj [("storage", b.storage.toRaw), ("view", b.view.toRaw)]

/-- The raw object underlying a constructed `ByLine`. -/
def ByLine.toRaw (b : ByLine) : JValue :=
  vObj [("displayName", b.displayName), ("email", b.email)]

/-- The raw object underlying a constructed `PageVersion`. -/
def PageVersion.toRaw (v : PageVersion) : JValue :=
  vObj [("number", v.number), ("when", v.when), ("by", v.byUser.toRaw)]

/-- The raw object underlying a constructed `PageHistory`. -/
def PageHistory.toRaw (h : PageHistory) : JValue :=
  vObj [("createdDate", h.createdDate), ("createdBy", h.createdBy.toRaw)]

/-- The raw object underlying a constructed `PageLinks`. -/
def PageLinks.toRaw (l : PageLinks) : JValue :=
  vObj [("webui", l.webui), ("self", vStr l.self)]

/-- The raw object underlying a normalized `ConfluencePage`. -/
def ConfluencePage.toRaw (p : ConfluencePage) : JValue :=
  vObj [("id", p.id), ("title", p.title), ("type", p.type), ("status", p.status),
    ("space", optRaw SpaceRef.toRaw p.space),
    ("body", p.body.toRaw), ("version", p.version.toRaw),
    ("history", p.history.toRaw), ("_links", p._links.toRaw)]

/-! ## All-defaults results and the ordered-alias reading -/

/-- The `fields` member produced by `normalizeCustomIssue` when no alias of
any attribute is present: every required member carries its deterministic
default, every optional member is `undefined`. -/
def defaultIssueFields (now : String) : IssueFields where
  summary := vStr ""
  description := vUndef
  status := { name := vStr "Unknown", id := vStr "1" }
  assignee := none
  reporter := none
  created := vStr now
  updated := vStr now
  priority := none
  issuetype := { name := vStr "Task", id := vStr "1" }
  project := { key := vStr "", name := vStr "" }
  labels := vArr []

/-- The issue produced by `normalizeCustomIssue` when no alias is present. -/
def defaultIssue (now : String) : JiraIssue where
  id := vStr ""
  key := vStr ""
  fields := defaultIssueFields now

/-- The comment produced by `normalizeCustomComment` when no alias is present. -/
def defaultComment (now : String) : JiraComment where
  id := vStr ""
  author := { displayName := vStr "Unknown", emailAddress := vStr "" }
  body := vStr ""
  created := vStr now
  updated := vStr now

/-- The project produced by `normalizeCustomProject` when no alias is present. -/
def defaultProject : JiraProject where
  id := vStr ""
  key := vStr ""
  name := vStr ""
  description := vStr ""
  lead := none

/-- The page produced by `normalizeCustomPage` when no alias is present. -/
def defaultPage (now : String) : ConfluencePage where
  id := vStr ""
  title := vStr ""
  type := vStr "page"
  status := vStr "current"
  space := none
  body := { storage := { value := vStr "", representation := "storage" },
            view := { value := vStr "", representation := "view" } }
  version := { number := vNum 1, when := vStr now,
               byUser := { displayName := vStr "Unknown", email := vStr "" } }
  history := { createdDate := vStr now,
               createdBy := { displayName := vStr "Unknown", email := vStr "" } }
  _links := { webui := vStr "", self := "/rest/api/content/undefined" }

/-- The space produced by `normalizeCustomSpace` when no alias is present. -/
def defaultSpace : ConfluenceSpace where
  key := vStr ""
  name := vStr ""
  type := vStr "global"
  description := { plain := { value := vStr "" } }
  _links := { webui := vStr "", self := "/rest/api/space/undefined" }

/-- The spec's reading of alias resolution: the first value in the ordered
alias list that is present with a truthy value wins; otherwise the default.
(`firstTruthy (a :: l) d` is definitionally `jsOr a (firstTruthy l d)`.) -/
def firstTruthy : List JValue → JValue → JValue
  | [], d => d
  | v :: vs, d => if truthy v then v else firstTruthy vs d

/-- The top-level keys `normalizeCustomIssue` consults. -/
def issueAliasKeys : List String :=
  ["id", "issue_id", "key", "number", "title", "summary", "name", "description",
   "body", "content", "status", "state", "status_id", "assignee", "reporter",
   "created_by", "created", "created_at", "updated", "updated_at", "priority",
   "priority_id", "type", "issue_type", "type_id", "project", "project_key",
   "project_name", "labels", "tags"]

/-- The top-level keys `normalizeCustomComment` consults. -/
def commentAliasKeys : List String :=
  ["id", "comment_id", "author", "user", "created_by", "author_email", "comment",
   "body", "content", "created", "created_at", "updated", "updated_at"]

/-- The top-level keys `normalizeCustomProject` consults. -/
def projectAliasKeys : List String :=
  ["id", "project_id", "key", "code", "name", "title", "description", "lead", "owner"]

/-- The top-level keys `normalizeCustomPage` consults. -/
def pageAliasKeys : List String :=
  ["id", "page_id", "title", "name", "status", "space", "space_key", "content",
   "body", "text", "version", "revision", "updated", "updated_at", "updated_by",
   "author", "updated_by_email", "created", "created_at", "created_by",
   "created_by_email", "url", "link"]

/-- The top-level keys `normalizeCustomSpace` consults. -/
def spaceAliasKeys : List String :=
  ["key", "id", "code", "name", "title", "type", "description", "url", "link"]

/-! ## Helper lemmas -/

/-- `a || b` keeps a truthy left operand. -/
lemma jsOr_of_truthy (a b : JValue) (h : truthy a = true) : jsOr a b = a := by
  simp [jsOr, h]

/-- `a || b` falls through a falsy left operand. -/
lemma jsOr_of_falsy (a b : JValue) (h : truthy a = false) : jsOr a b = b := by
  simp [jsOr, h]

/-- The `space` member computation of `normalizeCustomPage` throws exactly when
the raw `space` property is `null` while `space_key` is truthy. -/
lemma spaceField_eq_none (sp spk : JValue) :
    Confluence.spaceField sp spk = none ↔ (sp = vNull ∧ truthy spk = true) := by
  cases sp
  case vNull =>
    unfold Confluence.spaceField
    rw [jsOr_of_falsy vNull spk rfl]
    cases h : truthy spk <;> simp [h, typeof]
  all_goals
    (unfold Confluence.spaceField; split <;> simp [typeof])

/-! ## Claim C1 -/

/-- C1, counterexample: the claim says no canonical field of a normalized
entity is ever `undefined`, but for the empty raw object (which lacks every
alias) `normalizeCustomIssue` leaves `fields.description` equal to `undefined`
(its alias chain has no default) and `fields.assignee` unset. -/
theorem claim1_undefined_description :
    (Jira.normalizeCustomIssue (vObj []) "2024-01-01T00:00:00Z").map
        (fun i => i.fields.description) = some vUndef ∧
    (Jira.normalizeCustomIssue (vObj []) "2024-01-01T00:00:00Z").map
        (fun i => i.fields.assignee) = some none :=
  ⟨rfl, rfl⟩

/-- C1 (amended): when a raw object lacks every known alias, each of the five
normalizers produces the canonical entity whose required fields carry their
deterministic defaults (empty string, "Unknown", "Task", "1", "3", current
timestamp, empty array, "current", "global", version 1); the optional fields
(issue `description`, `assignee`, `reporter`, `priority`; project `lead`;
page `space`) are `undefined` in that case. -/
theorem claim1_required_defaults
    (fsI fsC fsP fsG fsS : List (String × JValue)) (now : String)
    (hI : ∀ k ∈ issueAliasKeys, lookupOr fsI k = vUndef)
    (hC : ∀ k ∈ commentAliasKeys, lookupOr fsC k = vUndef)
    (hP : ∀ k ∈ projectAliasKeys, lookupOr fsP k = vUndef)
    (hG : ∀ k ∈ pageAliasKeys, lookupOr fsG k = vUndef)
    (hS : ∀ k ∈ spaceAliasKeys, lookupOr fsS k = vUndef) :
    Jira.normalizeCustomIssue (vObj fsI) now = some (defaultIssue now) ∧
    Jira.normalizeCustomComment (vObj fsC) now = some (defaultComment now) ∧
    Jira.normalizeCustomProject (vObj fsP) = some defaultProject ∧
    Confluence.normalizeCustomPage (vObj fsG) now = some (defaultPage now) ∧
    Confluence.normalizeCustomSpace (vObj fsS) = some defaultSpace := by
  refine ⟨?_, ?_, ?_, ?_, ?_⟩
  · simp only [Jira.normalizeCustomIssue, getProp]
    rw [hI "id" (by decide), hI "issue_id" (by decide), hI "key" (by decide),
        hI "number" (by decide), hI "title" (by decide), hI "summary" (by decide),
        hI "name" (by decide), hI "description" (by decide), hI "body" (by decide),
        hI "content" (by decide), hI "status" (by decide), hI "state" (by decide),
        hI "status_id" (by decide), hI "assignee" (by decide), hI "reporter" (by decide),
        hI "created_by" (by decide), hI "created" (by decide), hI "created_at" (by decide),
        hI "updated" (by decide), hI "updated_at" (by decide), hI "priority" (by decide),
        hI "priority_id" (by decide), hI "type" (by decide), hI "issue_type" (by decide),
        hI "type_id" (by decide), hI "project" (by decide), hI "project_key" (by decide),
        hI "project_name" (by decide), hI "labels" (by decide), hI "tags" (by decide)]
    rfl
  · simp only [Jira.normalizeCustomComment, getProp]
    rw [hC "id" (by decide), hC "comment_id" (by decide), hC "author" (by decide),
        hC "user" (by decide), hC "created_by" (by decide), hC "author_email" (by decide),
        hC "comment" (by decide), hC "body" (by decide), hC "content" (by decide),
        hC "created" (by decide), hC "created_at" (by decide), hC "updated" (by decide),
        hC "updated_at" (by decide)]
    rfl
  · simp only [Jira.normalizeCustomProject, getProp]
    rw [hP "id" (by decide), hP "project_id" (by decide), hP "key" (by decide),
        hP "code" (by decide), hP "name" (by decide), hP "title" (by decide),
        hP "description" (by decide), hP "lead" (by decide), hP "owner" (by decide)]
    rfl
  · simp only [Confluence.normalizeCustomPage, getProp]
    rw [hG "id" (by decide), hG "page_id" (by decide), hG "title" (by decide),
        hG "name" (by decide), hG "status" (by decide), hG "space" (by decide),
        hG "space_key" (by decide), hG "content" (by decide), hG "body" (by decide),
        hG "text" (by decide), hG "version" (by decide), hG "revision" (by decide),
        hG "updated" (by decide), hG "updated_at" (by decide), hG "updated_by" (by decide),
        hG "author" (by decide), hG "updated_by_email" (by decide), hG "created" (by decide),
        hG "created_at" (by decide), hG "created_by" (by decide),
        hG "created_by_email" (by decide), hG "url" (by decide), hG "link" (by decide)]
    rfl
  · simp only [Confluence.normalizeCustomSpace, getProp]
    rw [hS "key" (by decide), hS "id" (by decide), hS "code" (by decide),
        hS "name" (by decide), hS "title" (by decide), hS "type" (by decide),
        hS "description" (by decide), hS "url" (by decide), hS "link" (by decide)]
    rfl

/-- C1, witness: `claim1_required_defaults` at the empty raw object. -/
theorem claim1_required_defaults_witness :
    Jira.normalizeCustomIssue (vObj []) "T" = some (defaultIssue "T") ∧
    Jira.normalizeCustomComment (vObj []) "T" = some (defaultComment "T") ∧
    Jira.normalizeCustomProject (vObj []) = some defaultProject ∧
    Confluence.normalizeCustomPage (vObj []) "T" = some (defaultPage "T") ∧
    Confluence.normalizeCustomSpace (vObj []) = some defaultSpace :=
  claim1_required_defaults [] [] [] [] [] "T"
    (fun _ _ => rfl) (fun _ _ => rfl) (fun _ _ => rfl) (fun _ _ => rfl) (fun _ _ => rfl)

/-! ## Claim C2 -/

/-- C2, counterexample: the claim says the first alias that is present and
non-null wins, but with `{title: "", summary: "x"}` the first alias `title` is
present and non-null (the empty string) while the canonical summary comes out
as `"x"`: the `||` chains skip every falsy value, not only null/undefined. -/
theorem claim2_not_first_non_null :
    (Jira.normalizeCustomIssue (vObj [("title", vStr ""), ("summary", vStr "x")])
        "T").map (fun i => i.fields.summary) ≠ some (vStr "") := by
  intro h
  have h1 : some (vStr "x") = some (vStr "") := h
  simp at h1

/-- C2 (amended): for every canonical attribute resolved through an alias
chain, the canonical value is the value of the highest-priority alias whose
value is truthy (present, non-null, and not `""`, `0` or `false`); when no
alias has a truthy value, the documented default appears (for the issue
description, whose chain ends in the last alias rather than a constant, the
last alias's value passes through). Stated for all flat-alias attributes of
the issue, comment, project, space and page normalizers; the page equalities
hold whenever the page normalizer returns an entity at all, i.e. on every
input that does not trigger its `space`-member throw. -/
theorem claim2_first_truthy_alias
    (fs gs hs ss ps : List (String × JValue)) (now : String) :
    ((Jira.normalizeCustomIssue (vObj fs) now).map (fun i =>
        (i.id, i.key, i.fields.summary, i.fields.description, i.fields.status.name,
         i.fields.status.id, i.fields.created, i.fields.updated,
         i.fields.issuetype.name, i.fields.issuetype.id, i.fields.project.key,
         i.fields.project.name, i.fields.labels)) =
      some (firstTruthy [lookupOr fs "id", lookupOr fs "issue_id"] (vStr ""),
            firstTruthy [lookupOr fs "key", lookupOr fs "id", lookupOr fs "number"]
              (vStr ""),
            firstTruthy [lookupOr fs "title", lookupOr fs "summary", lookupOr fs "name"]
              (vStr ""),
            firstTruthy [lookupOr fs "description", lookupOr fs "body"]
              (lookupOr fs "content"),
            firstTruthy [lookupOr fs "status", lookupOr fs "state"] (vStr "Unknown"),
            firstTruthy [lookupOr fs "status_id", lookupOr fs "status"] (vStr "1"),
            firstTruthy [lookupOr fs "created", lookupOr fs "created_at"] (vStr now),
            firstTruthy [lookupOr fs "updated", lookupOr fs "updated_at"] (vStr now),
            firstTruthy [lookupOr fs "type", lookupOr fs "issue_type"] (vStr "Task"),
            firstTruthy [lookupOr fs "type_id"] (vStr "1"),
            firstTruthy [lookupOr fs "project", lookupOr fs "project_key"] (vStr ""),
            firstTruthy [lookupOr fs "project_name", lookupOr fs "project"] (vStr ""),
            firstTruthy [lookupOr fs "labels", lookupOr fs "tags"] (vArr []))) ∧
    ((Jira.normalizeCustomComment (vObj gs) now).map (fun c =>
        (c.id, c.author.displayName, c.author.emailAddress, c.body, c.created,
         c.updated)) =
      some (firstTruthy [lookupOr gs "id", lookupOr gs "comment_id"] (vStr ""),
            firstTruthy [lookupOr gs "author", lookupOr gs "user",
              lookupOr gs "created_by"] (vStr "Unknown"),
            firstTruthy [lookupOr gs "author_email"] (vStr ""),
            firstTruthy [lookupOr gs "comment", lookupOr gs "body",
              lookupOr gs "content"] (vStr ""),
            firstTruthy [lookupOr gs "created", lookupOr gs "created_at"] (vStr now),
            firstTruthy [lookupOr gs "updated", lookupOr gs "updated_at"] (vStr now))) ∧
    ((Jira.normalizeCustomProject (vObj hs)).map (fun p =>
        (p.id, p.key, p.name, p.description)) =
      some (firstTruthy [lookupOr hs "id", lookupOr hs "project_id"] (vStr ""),
            firstTruthy [lookupOr hs "key", lookupOr hs "code", lookupOr hs "id"]
              (vStr ""),
            firstTruthy [lookupOr hs "name", lookupOr hs "title"] (vStr ""),
            firstTruthy [lookupOr hs "description"] (vStr ""))) ∧
    ((Confluence.normalizeCustomSpace (vObj ss)).map (fun s =>
        (s.key, s.name, s.type, s.description.plain.value, s._links.webui)) =
      some (firstTruthy [lookupOr ss "key", lookupOr ss "id", lookupOr ss "code"]
              (vStr ""),
            firstTruthy [lookupOr ss "name", lookupOr ss "title"] (vStr ""),
            firstTruthy [lookupOr ss "type"] (vStr "global"),
            firstTruthy [lookupOr ss "description"] (vStr ""),
            firstTruthy [lookupOr ss "url", lookupOr ss "link"] (vStr ""))) ∧
    ((Confluence.normalizeCustomPage (vObj ps) now).map (fun p =>
        (p.id, p.title, p.status, p.body.storage.value, p.body.view.value,
         p.version.number, p.version.when, p.version.byUser.displayName,
         p.version.byUser.email, p.history.createdDate,
         p.history.createdBy.displayName, p.history.createdBy.email,
         p._links.webui)) =
      (Confluence.normalizeCustomPage (vObj ps) now).map (fun _ =>
        (firstTruthy [lookupOr ps "id", lookupOr ps "page_id"] (vStr ""),
         firstTruthy [lookupOr ps "title", lookupOr ps "name"] (vStr ""),
         firstTruthy [lookupOr ps "status"] (vStr "current"),
         firstTruthy [lookupOr ps "content", lookupOr ps "body", lookupOr ps "text"]
           (vStr ""),
         firstTruthy [lookupOr ps "content", lookupOr ps "body", lookupOr ps "text"]
           (vStr ""),
         firstTruthy [lookupOr ps "version", lookupOr ps "revision"] (vNum 1),
         firstTruthy [lookupOr ps "updated", lookupOr ps "updated_at"] (vStr now),
         firstTruthy [lookupOr ps "updated_by", lookupOr ps "author"] (vStr "Unknown"),
         firstTruthy [lookupOr ps "updated_by_email"] (vStr ""),
         firstTruthy [lookupOr ps "created", lookupOr ps "created_at"] (vStr now),
         firstTruthy [lookupOr ps "created_by", lookupOr ps "author"] (vStr "Unknown"),
         firstTruthy [lookupOr ps "created_by_email"] (vStr ""),
         firstTruthy [lookupOr ps "url", lookupOr ps "link"] (vStr "")))) := by
  refine ⟨rfl, rfl, rfl, rfl, ?_⟩
  cases h : Confluence.spaceField (lookupOr ps "space") (lookupOr ps "space_key") <;>
    simp only [Confluence.normalizeCustomPage, getProp, h] <;> rfl

/-! ## Claim C3 -/

/-- C3, counterexample: normalization is not idempotent. Renormalizing the
normalized form of `{title: "hi"}` loses the summary (the canonical object
keeps it under `fields.summary`, which is not an alias the normalizer reads at
top level), and renormalizing any normalized page turns `body.storage.value`
into the serialized body object rather than the original string. -/
theorem claim3_not_idempotent :
    ((Jira.normalizeCustomIssue (vObj [("title", vStr "hi")]) "T").bind
        (fun i => Jira.normalizeCustomIssue i.toRaw "T")) ≠
      Jira.normalizeCustomIssue (vObj [("title", vStr "hi")]) "T" ∧
    ((Confluence.normalizeCustomPage (vObj []) "T").bind
        (fun p => Confluence.normalizeCustomPage p.toRaw "T")) ≠
      Confluence.normalizeCustomPage (vObj []) "T" := by
  constructor
  · intro h
    have h1 : some (vStr "") = some (vStr "hi") :=
      congrArg (Option.map (fun i : JiraIssue => i.fields.summary)) h
    simp at h1
  · intro h
    have h1 : some ((defaultPage "T").body.toRaw) = some (vStr "") :=
      congrArg (Option.map (fun p : ConfluencePage => p.body.storage.value)) h
    simp [PageBody.toRaw, BodyPart.toRaw, defaultPage] at h1

/-- C3 (amended): applying a normalizer to its own output does not reproduce
the canonical entity. For issues it keeps `id` as `id || ''` and `key` as
`key || id || ''` and resets every other field to the no-alias defaults (the
canonical attributes live under `fields`, which the normalizer never reads).
For pages it keeps `id`, `title`, `type`, `status` and `space` (modulo the
`|| default` fallbacks) but replaces `body.storage.value` and
`version.number` with the serialized body and version objects. -/
theorem claim3_renormalization :
    (∀ (i : JiraIssue) (now : String),
      Jira.normalizeCustomIssue i.toRaw now =
        some { id := jsOr i.id (vStr ""),
               key := jsOr i.key (jsOr i.id (vStr "")),
               fields := defaultIssueFields now }) ∧
    (∀ (p : ConfluencePage) (now : String),
      Confluence.normalizeCustomPage p.toRaw now =
        some { id := jsOr p.id (vStr ""),
               title := jsOr p.title (vStr ""),
               type := vStr "page",
               status := jsOr p.status (vStr "current"),
               space := p.space,
               body := { storage := { value := p.body.toRaw, representation := "storage" },
                         view := { value := p.body.toRaw, representation := "view" } },
               version := { number := p.version.toRaw, when := vStr now,
                            byUser := { displayName := vStr "Unknown", email := vStr "" } },
               history := { createdDate := vStr now,
                            createdBy := { displayName := vStr "Unknown",
                                           email := vStr "" } },
               _links := { webui := vStr "",
                           self := "/rest/api/content/" ++
                             jsToString (jsOr p.id vUndef) } }) := by
  constructor
  · intro i now
    rfl
  · intro p now
    obtain ⟨pid, pt, pty, pst, sp, bd, ver, hist, lk⟩ := p
    cases sp <;> rfl

/-! ## Claim C4 -/

/-- C4: the claim (and spec) say degrading `assignee = currentUser()` yields
`{assignee: "me"}`, but the code matches against the original-case string
(`jqlLower` is computed and never used) while comparing the capture to the
lowercase literal `'currentuser()'`, so `currentUser()` is not rewritten and
the filter comes out as `{assignee: "currentUser()"}`. -/
theorem claim4_currentuser_not_rewritten :
    Jira.parseJqlToFilters "assignee = currentUser()" =
      { project := none, status := none, assignee := some "currentUser()" } ∧
    Jira.parseJqlToFilters "assignee = currentUser()" ≠
      { project := none, status := none, assignee := some "me" } :=
  ⟨by decide, by decide⟩

/-- C4, the lowercase spelling is rewritten, confirming the intended branch
exists and is reachable only for lowercase input. -/
theorem claim4_lowercase_rewritten :
    Jira.parseJqlToFilters "assignee = currentuser()" =
      { project := none, status := none, assignee := some "me" } := by decide

/-! ## Claim C5 -/

/-- C5: degrading `project = DEMO AND status = "Open"` produces exactly
`{project: "DEMO", status: "Open"}`: the clauses are matched
case-insensitively, the quotes are stripped, and no assignee filter (nor the
`AND` structure) survives. -/
theorem claim5_demo_open :
    Jira.parseJqlToFilters "project = DEMO AND status = \"Open\"" =
      { project := some "DEMO", status := some "Open", assignee := none } := by decide

/-! ## Claim C6 -/

/-- C6: the claim says the page degrader splits the reduced query on
whitespace and keeps only tokens longer than 2 characters, but
`query.split()` is called without a separator, which in JavaScript returns
`[query]`: on `"ab and hello"` the keyword pass yields `"ab   hello"`, no
tokenization happens, the single 10-character "token" passes the filter, and
the short token `ab` survives — where the claimed behaviour would return
`"hello"`. -/
theorem claim6_no_tokenization :
    Confluence.parseCqlToSimpleQuery "ab and hello" = "ab   hello" ∧
    Confluence.parseCqlToSimpleQuery "ab and hello" ≠ "hello" :=
  ⟨by decide, by decide⟩

/-! ## Claim C7 -/

/-- C7, counterexample: for the empty string — a plain string value — the
truthiness guard fails, so the assignee (and page space) member is `undefined`
rather than an object whose display name is `""`. -/
theorem claim7_empty_string_dropped :
    (Jira.normalizeCustomIssue (vObj [("assignee", vStr "")]) "T").map
        (fun i => i.fields.assignee) = some none ∧
    (Confluence.normalizeCustomPage (vObj [("space", vStr "")]) "T").map
        (fun p => p.space) = some none ∧
    (some (none : Option Person) ≠
      some (some { displayName := vStr "", emailAddress := vStr "" })) := by
  refine ⟨rfl, rfl, ?_⟩
  simp

/-- C7 (amended): for every raw issue object whose `assignee` property is a
non-empty plain string `s`, normalization wraps it into an object with
`displayName = s` (and empty email), and likewise a non-empty string-valued
`space` on pages becomes `{key: s, name: s}`; the empty string is falsy and
produces `undefined` instead. -/
theorem claim7_string_wrapping (fs gs : List (String × JValue)) (now s : String)
    (hs : s ≠ "")
    (h1 : lookupOr fs "assignee" = vStr s)
    (h2 : lookupOr gs "space" = vStr s) :
    (Jira.normalizeCustomIssue (vObj fs) now).map (fun i => i.fields.assignee) =
      some (some { displayName := vStr s, emailAddress := vStr "" }) ∧
    (Confluence.normalizeCustomPage (vObj gs) now).map (fun p => p.space) =
      some (some { key := vStr s, name := vStr s }) := by
  have ht : truthy (vStr s) = true := by simp [truthy, hs]
  constructor
  · simp only [Jira.normalizeCustomIssue, getProp]
    rw [h1]
    simp [ht, jsOr, getProp, truthy, hs]
  · simp only [Confluence.normalizeCustomPage, getProp, Confluence.spaceField]
    rw [h2, jsOr_of_truthy (vStr s) _ ht]
    simp [ht, typeof]

/-- C7, witness: `claim7_string_wrapping` at `assignee = "bob"` / `space = "bob"`. -/
theorem claim7_string_wrapping_witness :
    (Jira.normalizeCustomIssue (vObj [("assignee", vStr "bob")]) "T").map
        (fun i => i.fields.assignee) =
      some (some { displayName := vStr "bob", emailAddress := vStr "" }) ∧
    (Confluence.normalizeCustomPage (vObj [("space", vStr "bob")]) "T").map
        (fun p => p.space) =
      some (some { key := vStr "bob", name := vStr "bob" }) :=
  claim7_string_wrapping [("assignee", vStr "bob")] [("space", vStr "bob")] "T" "bob"
    (by decide) rfl rfl

/-! ## Claim C8 -/

/-- C8, counterexample: the claim says every upstream response with an empty
result array normalizes to total 0, but the Jira normalizer computes
`total || issues.length`, so a truthy upstream `total` (here 5) passes through
even though the array is empty. -/
theorem claim8_total_passthrough :
    (Jira.normalizeCustomSearchResult (vObj [("issues", vArr []), ("total", vNum 5)])
        50 0 "T").map (fun r => r.total) ≠ some (vNum 0) := by
  intro h
  have h1 : some (vNum 5) = some (vNum 0) := h
  simp at h1

/-- C8 (amended): on an upstream response whose result array is empty, both
search-result normalizers return an empty entity sequence without error; the
Confluence `size` is always 0 (it is the array length), and the Jira `total`
is 0 unless the upstream itself supplies a truthy `total`, which passes
through. -/
theorem claim8_empty_search (fs gs : List (String × JValue))
    (maxResults startAt limit start : Int) (now : String)
    (h1 : lookupOr fs "issues" = vArr [])
    (h2 : lookupOr gs "pages" = vArr []) :
    Jira.normalizeCustomSearchResult (vObj fs) maxResults startAt now =
      some { issues := [], total := jsOr (lookupOr fs "total") (vNum 0),
             maxResults := maxResults, startAt := startAt } ∧
    Confluence.normalizeCustomSearchResult (vObj gs) limit start now =
      some { results := [], start := start, limit := limit, size := 0 } := by
  constructor
  · simp only [Jira.normalizeCustomSearchResult, getProp]
    rw [h1]
    rfl
  · simp only [Confluence.normalizeCustomSearchResult, getProp]
    rw [h2]
    rfl

/-- C8, witness: `claim8_empty_search` at `{issues: []}` / `{pages: []}`. -/
theorem claim8_empty_search_witness :
    Jira.normalizeCustomSearchResult (vObj [("issues", vArr [])]) 50 0 "T" =
      some { issues := [],
             total := jsOr (lookupOr [("issues", vArr [])] "total") (vNum 0),
             maxResults := 50, startAt := 0 } ∧
    Confluence.normalizeCustomSearchResult (vObj [("pages", vArr [])]) 25 0 "T" =
      some { results := [], start := 0, limit := 25, size := 0 } :=
  claim8_empty_search [("issues", vArr [])] [("pages", vArr [])] 50 0 25 0 "T" rfl rfl

/-! ## Claim C9 -/

/-- C9, counterexample: the claim says lookup operations return a null/empty
result and never raise on an empty upstream result set, but `getSpace` with an
empty upstream space list raises `Space DEV not found`. -/
theorem claim9_getspace_raises :
    Confluence.getSpaceCustom (vObj [("spaces", vArr [])]) "DEV" =
      some (Except.error "Space DEV not found") := rfl

/-- C9 (amended): on an empty upstream result set, `getPageByTitle` returns
`null` without raising, but `getSpace` raises a `Space ... not found` error
rather than returning a null/empty result. -/
theorem claim9_empty_lookup (fs gs : List (String × JValue))
    (title now spaceKey : String)
    (h1 : lookupOr fs "pages" = vArr [])
    (h2 : lookupOr gs "spaces" = vArr []) :
    Confluence.getPageByTitleCustom (vObj fs) title now = some none ∧
    Confluence.getSpaceCustom (vObj gs) spaceKey =
      some (Except.error ("Space " ++ spaceKey ++ " not found")) := by
  constructor
  · simp only [Confluence.getPageByTitleCustom, getProp]
    rw [h1]
    rfl
  · simp only [Confluence.getSpaceCustom, Confluence.getSpacesCustom, getProp]
    rw [h2]
    rfl

/-- C9, witness: `claim9_empty_lookup` at `{pages: []}` / `{spaces: []}`. -/
theorem claim9_empty_lookup_witness :
    Confluence.getPageByTitleCustom (vObj [("pages", vArr [])]) "Home" "T" =
      some none ∧
    Confluence.getSpaceCustom (vObj [("spaces", vArr [])]) "DEV" =
      some (Except.error ("Space " ++ "DEV" ++ " not found")) :=
  claim9_empty_lookup [("pages", vArr [])] [("spaces", vArr [])] "Home" "T" "DEV" rfl rfl

/-! ## Claim C10 -/

/-- C10, counterexample: the claim restricts throwing to null/undefined input,
but `normalizeCustomPage` also throws on the object `{space: null,
space_key: "K"}` (because `typeof null === 'object'` routes it into
`customPage.space.key`), while `normalizeCustomIssue` does NOT throw on the
non-object, non-nullish input `"x"` (it returns the all-defaults entity). -/
theorem claim10_page_throws_on_object :
    Confluence.normalizeCustomPage (vObj [("space", vNull), ("space_key", vStr "K")])
        "T" = none ∧
    (Jira.normalizeCustomIssue (vStr "x") "T").isSome = true :=
  ⟨rfl, rfl⟩

/-- C10 (amended): `normalizeCustomIssue` throws exactly on `null`/`undefined`
input; `normalizeCustomPage` throws exactly on `null`/`undefined` input or on
any input whose `space` property is `null` while `space_key` is truthy. Every
other input — object or not — produces a canonical entity. -/
theorem claim10_throw_characterization (raw : JValue) (now : String) :
    (Jira.normalizeCustomIssue raw now = none ↔ (raw = vNull ∨ raw = vUndef)) ∧
    (Confluence.normalizeCustomPage raw now = none ↔
      (raw = vNull ∨ raw = vUndef ∨
        (getProp raw "space" = vNull ∧ truthy (getProp raw "space_key") = true))) := by
  constructor
  · cases raw <;> simp [Jira.normalizeCustomIssue]
  · cases raw <;>
      simp [Confluence.normalizeCustomPage, Option.map_eq_none', spaceField_eq_none,
        getProp]
